import Mathlib

/-!
Shallow embedding of the video-upload pipeline of
`learn-file-storage-s3-golang-starter`.

Sources embedded:
* `src/handler_upload_video.go` — `getVideoAspectRatio`,
  `processVideoForFastStart`, `handlerUploadVideo` (the authoritative
  handler, here `handlerUploadVideo`);
* `src/unnamed/part_001` first file — the signed-URL variant of the
  handler (`handlerUploadVideoSigned`), `dbVideoToSignedVideo`,
  `generatePresignedURL`;
* `src/unnamed/part_001` second file — the static-URL variant of the
  handler (`handlerUploadVideoStatic`) with its inline random storage-key
  derivation using `base64.RawURLEncoding`.

External calls (uuid parsing, JWT validation, the metadata store, ffprobe
and ffmpeg process runs, `os` file operations, S3) are modelled by an
environment record supplying each call's outcome; the handler body is the
exact Go control flow over those outcomes.  Side effects performed by a
run (temp-file creation/removal, S3 put calls, metadata-store writes,
presign calls) are recorded in an `Effects` record: the lists record the
calls that were issued, whether or not the callee succeeded.
-/

deriving instance DecidableEq for Except

/-- A stream entry of the ffprobe JSON output.  The Go struct `VideoMeta`
is consumed by `getVideoAspectRatio` through the fields `Streams`,
`CodecType` and `DisplayAspectRatio`; its declaration itself is not under
`src/`.  Modelled from the spec: "a list of streams, each with a
codec-type field and, for video streams, a display-aspect-ratio field". -/
structure StreamInfo where
  CodecType : String
  DisplayAspectRatio : String
deriving DecidableEq, Repr

/-- The ffprobe JSON document: a list of streams. -/
structure VideoMeta where
  Streams : List StreamInfo
deriving DecidableEq, Repr

/-- A metadata-store video record (`database.Video`): identifier, owning
user, nullable video URL, nullable thumbnail URL.  Identifiers are opaque
(uuid) and modelled as naturals. -/
structure Video where
  ID : Nat
  UserID : Nat
  VideoURL : Option String
  ThumbnailURL : Option String
deriving DecidableEq, Repr

/-- Deployment configuration of `apiConfig` used by the handlers. -/
structure Config where
  s3Bucket : String
  s3Region : String
  s3CfDistribution : String
  jwtSecret : String
deriving DecidableEq, Repr

/-- Outcome of one ffprobe invocation: the process run result and the
result of `json.Unmarshal` on its captured standard output. -/
structure ProbeEnv where
  ffprobeRun : Except Unit Unit
  unmarshal : Except Unit VideoMeta
deriving DecidableEq, Repr

/-- Outcome of one ffmpeg remux invocation: the process run result and
the result of `os.Stat` on the output path (`.ok size` when the stat
succeeds, carrying `FileInfo.Size()`). -/
structure RemuxEnv where
  ffmpegRun : Except Unit Unit
  statOutput : Except Unit Int
deriving DecidableEq, Repr

/-- The loop of `getVideoAspectRatio` over `meta.Streams`
(`src/handler_upload_video.go` lines 36-46): skip streams whose
`CodecType` is not "video"; return the first `DisplayAspectRatio` that is
exactly "16:9" or "9:16"; otherwise fall through to "other". -/
def aspectLoop : List StreamInfo → String
  | [] => "other"
  | s :: rest =>
    if s.CodecType ≠ "video" then aspectLoop rest
    else if s.DisplayAspectRatio = "16:9" ∨ s.DisplayAspectRatio = "9:16" then
      s.DisplayAspectRatio
    else aspectLoop rest

/-- `getVideoAspectRatio` (`src/handler_upload_video.go` lines 19-47):
run ffprobe; on success unmarshal its output; on success scan the stream
list.  The file path argument of the Go function is represented by the
`ProbeEnv` describing that invocation's outcome. -/
def getVideoAspectRatio (env : ProbeEnv) : Except Unit String :=
  match env.ffprobeRun with
  | .error e => .error e
  | .ok _ =>
    match env.unmarshal with
    | .error e => .error e
    | .ok meta => .ok (aspectLoop meta.Streams)

/-- `processVideoForFastStart` (`src/handler_upload_video.go` lines
49-68): output path is the input path plus ".processing"; run ffmpeg; on
success stat the output; fail if the stat fails or the size is zero;
otherwise return the output path. -/
def processVideoForFastStart (env : RemuxEnv) (filepath : String) :
    Except Unit String :=
  let output := filepath ++ ".processing"
  match env.ffmpegRun with
  | .error e => .error e
  | .ok _ =>
    match env.statOutput with
    | .error _ => .error ()
    | .ok size => if size = 0 then .error () else .ok output

/-- The 64-character alphabet of Go's `base64.RawURLEncoding`
(RFC 4648 URL-safe alphabet, no padding). -/
def b64UrlAlphabet : List Char :=
  "ABCDEFGHIJKLMNOPQRSTUVWXYZabcdefghijklmnopqrstuvwxyz0123456789-_".data

/-- Character for a 6-bit value under the URL-safe alphabet. -/
def b64Char (n : Nat) : Char := b64UrlAlphabet.getD n 'A'

/-- 6-bit value of an alphabet character (left inverse of `b64Char` on
values below 64. Proof device for injectivity; not part of the source). -/
def b64Val (c : Char) : Nat := b64UrlAlphabet.indexOf c

/-- Byte list to 6-bit-group list, as base64 encoding chops it: full
3-byte groups become 4 sextets; a 1-byte tail becomes 2 sextets and a
2-byte tail 3 sextets (RawURLEncoding emits no padding). -/
def toSextets : List Nat → List Nat
  | [] => []
  | [b0] => [b0 / 4, b0 % 4 * 16]
  | [b0, b1] => [b0 / 4, b0 % 4 * 16 + b1 / 16, b1 % 16 * 4]
  | b0 :: b1 :: b2 :: rest =>
    b0 / 4 :: (b0 % 4 * 16 + b1 / 16) :: (b1 % 16 * 4 + b2 / 64) :: b2 % 64 ::
      toSextets rest

/-- `base64.RawURLEncoding.EncodeToString` over a byte list (bytes are
naturals below 256). -/
def b64RawUrlEncode (bytes : List Nat) : String :=
  ⟨(toSextets bytes).map b64Char⟩

/-- Inverse of `toSextets` (proof device for injectivity; a 1-sextet
tail cannot arise from an encoding and decodes to nothing). -/
def fromSextets : List Nat → List Nat
  | [] => []
  | [_] => []
  | [s0, s1] => [s0 * 4 + s1 / 16]
  | [s0, s1, s2] => [s0 * 4 + s1 / 16, s1 % 16 * 16 + s2 / 4]
  | s0 :: s1 :: s2 :: s3 :: rest =>
    (s0 * 4 + s1 / 16) :: (s1 % 16 * 16 + s2 / 4) :: (s2 % 4 * 64 + s3) ::
      fromSextets rest

/-- Decode a base64url string back to bytes (proof device). -/
def b64RawUrlDecode (s : String) : List Nat := fromSextets (s.data.map b64Val)

/-- Go `strings.Split` on a one-character separator, over a character
list: splitting never drops characters, and a list without the separator
yields the single whole group. -/
def splitOnChar (c : Char) : List Char → List (List Char)
  | [] => [[]]
  | x :: xs =>
    if x = c then [] :: splitOnChar c xs
    else
      match splitOnChar c xs with
      | [] => [[x]]
      | g :: gs => (x :: g) :: gs

/-- `strings.Split(s, ",")` as used by `dbVideoToSignedVideo`. -/
def stringsSplitComma (s : String) : List String :=
  (splitOnChar ',' s.data).map fun l => ⟨l⟩

example : stringsSplitComma "bkt,a/b.mp4" = ["bkt", "a/b.mp4"] := by decide
example : stringsSplitComma "https://x/y" = ["https://x/y"] := by decide
example : b64RawUrlEncode [255, 255, 255] = "____" := by decide
example : b64RawUrlEncode [0] = "AA" := by decide

/-- A recorded S3 `PutObject` call. -/
structure S3PutCall where
  bucket : String
  key : String
  contentType : String
deriving DecidableEq, Repr

/-- A recorded `PresignGetObject` call; `expire` is the Go
`time.Duration` in nanoseconds. -/
structure PresignCall where
  bucket : String
  key : String
  expire : Nat
deriving DecidableEq, Repr

/-- One nanosecond-denominated second, Go's `time.Second`. -/
def timeSecond : Nat := 1000000000

/-- Side effects recorded along a handler run.  `tempCreated` is true
once `os.CreateTemp` succeeded; `tempRemoved`/`processedRemoved` are true
exactly when the corresponding `defer os.Remove(...)` had been registered
before the handler returned (Go runs every registered defer on return).
The lists record issued calls, whether or not the callee succeeded. -/
structure Effects where
  tempCreated : Bool := false
  tempRemoved : Bool := false
  processedRemoved : Bool := false
  s3Puts : List S3PutCall := []
  dbWrites : List Video := []
  presignCalls : List PresignCall := []
deriving DecidableEq, Repr

/-- The handler's HTTP response: `respondWithError` or
`respondWithJSON`. -/
inductive HResp where
  | error (status : Nat) (msg : String)
  | json (status : Nat) (video : Video)
deriving DecidableEq, Repr

/-- Environment of one handler request: the deployment configuration and
the outcome of every external call the handler may issue, in program
order.  `parseMultipartForm` is the (discarded) result of
`r.ParseMultipartForm`; `contentTypeParse` is the result of
`mime.ParseMediaType(header.Header.Get("Content-Type"))` — an absent
Content-Type header makes `Get` return "" which that parser rejects, so
absence lands in the `.error` case.  `assetPathResult` abstracts
`getAssetPath` (a repository function not under `src/`, modelled from the
spec: random-identifier asset-path derivation) as the string it returned.
`randName` is the 32-byte buffer filled by `crypto/rand.Read` in the
static variant (whose error the source discards). -/
structure Env where
  cfg : Config
  videoIDParse : Except Unit Nat
  bearerToken : Except Unit String
  validateJWT : Except Unit Nat
  getVideo : Except Unit Video
  parseMultipartForm : Except Unit Unit
  formFile : Except Unit Unit
  contentTypeParse : Except Unit String
  createTemp : Except Unit String
  copyBody : Except Unit Unit
  probe : ProbeEnv
  remux : RemuxEnv
  openProcessed : Except Unit Unit
  assetPathResult : String
  s3Put : Except Unit Unit
  dbUpdate : Except Unit Unit
  presign : Except Unit String
  randName : List Nat
deriving DecidableEq, Repr

/-- The ratio renaming of the handlers (`src/handler_upload_video.go`
lines 154-158 and the same lines of both variants): "16:9" becomes
"landscape", "9:16" becomes "portrait", anything else stays. -/
def classifyRatio (ratio : String) : String :=
  if ratio = "16:9" then "landscape"
  else if ratio = "9:16" then "portrait"
  else ratio

/-- `handlerUploadVideo` of `src/handler_upload_video.go` (lines
70-204), the authoritative handler.  Control flow is the source's: uuid
parse, bearer token, JWT, `GetVideo`, ownership check, (discarded)
`ParseMultipartForm`, `FormFile`, media-type parse and check, temp-file
creation, body copy, (discarded) `Seek`, aspect probe, and only then
`defer os.Remove(tmpFile.Name())` / `defer tmpFile.Close()` (lines
152-153 of the source), remux with its own deferred removal, open of the
processed file, S3 put under `ratio ++ "/" ++ getAssetPath(mediaType)`,
CloudFront URL build, metadata update, JSON response. -/
def handlerUploadVideo (env : Env) : HResp × Effects :=
  match env.videoIDParse with
  | .error _ => (.error 400 "Invalid ID", {})
  | .ok _videoID =>
  match env.bearerToken with
  | .error _ => (.error 401 "Couldn't find JWT", {})
  | .ok _token =>
  match env.validateJWT with
  | .error _ => (.error 401 "Couldn't validate JWT", {})
  | .ok userID =>
  match env.getVideo with
  | .error _ => (.error 400 "No video corresponding to videoID", {})
  | .ok video =>
  if video.UserID ≠ userID then
    (.error 401 "User is not the owner of the video", {})
  else
  -- uploadLimit := 1 << 30; r.ParseMultipartForm's error value is discarded
  match env.formFile with
  | .error _ => (.error 400 "Unable to parse form file", {})
  | .ok _ =>
  match env.contentTypeParse with
  | .error _ => (.error 400 "Invalid Content-Type", {})
  | .ok mediaType =>
  if mediaType ≠ "video/mp4" then (.error 400 "Invalid file type", {})
  else
  match env.createTemp with
  | .error _ => (.error 500 "Error when creating temp file", {})
  | .ok _tmpName =>
  match env.copyBody with
  | .error _ =>
    (.error 500 "Error when writing temp video file", { tempCreated := true })
  | .ok _ =>
  -- tmpFile.Seek(0, io.SeekStart): result discarded
  match getVideoAspectRatio env.probe with
  | .error _ =>
    (.error 500 "Error when fetching video ratio", { tempCreated := true })
  | .ok ratio0 =>
  -- defer os.Remove(tmpFile.Name()); defer tmpFile.Close() — registered here
  let ratio := classifyRatio ratio0
  match processVideoForFastStart env.remux _tmpName with
  | .error _ =>
    (.error 500 "Error when converting video for streaming",
      { tempCreated := true, tempRemoved := true })
  | .ok _processed =>
  -- defer os.Remove(processed)
  match env.openProcessed with
  | .error _ =>
    (.error 500 "Error when converting video for streaming",
      { tempCreated := true, tempRemoved := true, processedRemoved := true })
  | .ok _ =>
  let key := ratio ++ "/" ++ env.assetPathResult
  let eff : Effects :=
    { tempCreated := true, tempRemoved := true, processedRemoved := true,
      s3Puts := [⟨env.cfg.s3Bucket, key, mediaType⟩] }
  match env.s3Put with
  | .error _ => (.error 500 "Error when sending file to s3", eff)
  | .ok _ =>
  let videoURL := "https://" ++ env.cfg.s3CfDistribution ++ "/" ++ key
  let video2 := { video with VideoURL := some videoURL }
  let eff2 := { eff with dbWrites := [video2] }
  match env.dbUpdate with
  | .error _ => (.error 500 "Error when updating video", eff2)
  | .ok _ => (.json 200 video2, eff2)

/-- `generatePresignedURL` (`src/unnamed/part_001` first file, lines
234-243): issue one presign request with the given bucket, key and
expiry; its outcome is the environment's `presign` field.  The issued
call is returned alongside for the effect trace. -/
def generatePresignedURL (env : Env) (bucket key : String)
    (expireTime : Nat) : Except Unit String × List PresignCall :=
  (env.presign, [⟨bucket, key, expireTime⟩])

/-- `dbVideoToSignedVideo` (`src/unnamed/part_001` first file, lines
216-232): split the stored URL on ","; fewer than two parts returns the
record unchanged; otherwise presign `GetObject` for bucket `splitted[0]`
and key `splitted[1]` with expiry `time.Second*5` and substitute the
presigned URL into the returned record.  A nil `VideoURL` would be a nil
pointer dereference in Go (panic); it is modelled as an error result and
no execution path of the embedded callers reaches it. -/
def dbVideoToSignedVideo (env : Env) (video : Video) :
    Except Unit Video × List PresignCall :=
  match video.VideoURL with
  | none => (.error (), [])
  | some url =>
    let splitted := stringsSplitComma url
    if splitted.length < 2 then (.ok video, [])
    else
      let res := generatePresignedURL env (splitted.getD 0 "")
        (splitted.getD 1 "") (timeSecond * 5)
      match res.1 with
      | .error _ => (.error (), res.2)
      | .ok presignedUrl =>
        (.ok { video with VideoURL := some presignedUrl }, res.2)

/-- `handlerUploadVideo` of `src/unnamed/part_001` first file (lines
73-214), the signed-URL deployment variant.  Identical to the
authoritative handler through the open of the processed file (including
the late temp-file defer); then the key is
`ratio ++ "/" ++ getAssetPath(mediaTypeToExt(mediaType))` (both helpers
outside `src/`, abstracted by `assetPathResult`), the persisted URL is
the raw `bucket ++ "," ++ key` pair, and after a successful update the
record is passed through `dbVideoToSignedVideo` before responding. -/
def handlerUploadVideoSigned (env : Env) : HResp × Effects :=
  match env.videoIDParse with
  | .error _ => (.error 400 "Invalid ID", {})
  | .ok _videoID =>
  match env.bearerToken with
  | .error _ => (.error 401 "Couldn't find JWT", {})
  | .ok _token =>
  match env.validateJWT with
  | .error _ => (.error 401 "Couldn't validate JWT", {})
  | .ok userID =>
  match env.getVideo with
  | .error _ => (.error 400 "No video corresponding to videoID", {})
  | .ok video =>
  if video.UserID ≠ userID then
    (.error 401 "User is not the owner of the video", {})
  else
  match env.formFile with
  | .error _ => (.error 400 "Unable to parse form file", {})
  | .ok _ =>
  match env.contentTypeParse with
  | .error _ => (.error 400 "Invalid Content-Type", {})
  | .ok mediaType =>
  if mediaType ≠ "video/mp4" then (.error 400 "Invalid file type", {})
  else
  match env.createTemp with
  | .error _ => (.error 500 "Error when creating temp file", {})
  | .ok _tmpName =>
  match env.copyBody with
  | .error _ =>
    (.error 500 "Error when writing temp video file", { tempCreated := true })
  | .ok _ =>
  match getVideoAspectRatio env.probe with
  | .error _ =>
    (.error 500 "Error when fetching video ratio", { tempCreated := true })
  | .ok ratio0 =>
  let ratio := classifyRatio ratio0
  match processVideoForFastStart env.remux _tmpName with
  | .error _ =>
    (.error 500 "Error when converting video for streaming",
      { tempCreated := true, tempRemoved := true })
  | .ok _processed =>
  match env.openProcessed with
  | .error _ =>
    (.error 500 "Error when converting video for streaming",
      { tempCreated := true, tempRemoved := true, processedRemoved := true })
  | .ok _ =>
  let key := ratio ++ "/" ++ env.assetPathResult
  let eff : Effects :=
    { tempCreated := true, tempRemoved := true, processedRemoved := true,
      s3Puts := [⟨env.cfg.s3Bucket, key, mediaType⟩] }
  match env.s3Put with
  | .error _ => (.error 500 "Error when sending file to s3", eff)
  | .ok _ =>
  let videoURL := env.cfg.s3Bucket ++ "," ++ key
  let video2 := { video with VideoURL := some videoURL }
  let eff2 := { eff with dbWrites := [video2] }
  match env.dbUpdate with
  | .error _ => (.error 500 "Error when updating video", eff2)
  | .ok _ =>
  match dbVideoToSignedVideo env video2 with
  | (.error _, calls) =>
    (.error 500 "Error when updating video",
      { eff2 with presignCalls := calls })
  | (.ok video3, calls) =>
    (.json 200 video3, { eff2 with presignCalls := calls })

/-- `handlerUploadVideo` of `src/unnamed/part_001` second file (lines
294-417), the static-URL deployment variant.  Differences from the
authoritative handler: `defer os.Remove(tmpFile.Name())` and
`defer tmpFile.Close()` are registered immediately after `os.CreateTemp`
succeeds (lines 360-361), there is no remux step, the key is derived
inline from 32 `crypto/rand` bytes (`rand.Read`'s error is discarded)
encoded with `base64.RawURLEncoding` plus a literal ".mp4", the body
uploaded is the staged temp file, and the persisted URL is the static
`https://<bucket>.s3.<region>.amazonaws.com/<key>`. -/
def handlerUploadVideoStatic (env : Env) : HResp × Effects :=
  match env.videoIDParse with
  | .error _ => (.error 400 "Invalid ID", {})
  | .ok _videoID =>
  match env.bearerToken with
  | .error _ => (.error 401 "Couldn't find JWT", {})
  | .ok _token =>
  match env.validateJWT with
  | .error _ => (.error 401 "Couldn't validate JWT", {})
  | .ok userID =>
  match env.getVideo with
  | .error _ => (.error 400 "No video corresponding to videoID", {})
  | .ok video =>
  if video.UserID ≠ userID then
    (.error 401 "User is not the owner of the video", {})
  else
  match env.formFile with
  | .error _ => (.error 400 "Unable to parse form file", {})
  | .ok _ =>
  match env.contentTypeParse with
  | .error _ => (.error 400 "Invalid Content-Type", {})
  | .ok mediaType =>
  if mediaType ≠ "video/mp4" then (.error 400 "Invalid file type", {})
  else
  match env.createTemp with
  | .error _ => (.error 500 "Error when creating temp file", {})
  | .ok _tmpName =>
  -- defer os.Remove(tmpFile.Name()); defer tmpFile.Close() — registered here
  match env.copyBody with
  | .error _ =>
    (.error 500 "Error when writing temp video file",
      { tempCreated := true, tempRemoved := true })
  | .ok _ =>
  match getVideoAspectRatio env.probe with
  | .error _ =>
    (.error 500 "Error when fetching video ratio",
      { tempCreated := true, tempRemoved := true })
  | .ok ratio0 =>
  let ratio := classifyRatio ratio0
  let rawUrlEncoding := b64RawUrlEncode env.randName
  let key := ratio ++ "/" ++ rawUrlEncoding ++ ".mp4"
  let eff : Effects :=
    { tempCreated := true, tempRemoved := true,
      s3Puts := [⟨env.cfg.s3Bucket, key, mediaType⟩] }
  match env.s3Put with
  | .error _ => (.error 500 "Error when sending file to s3", eff)
  | .ok _ =>
  let videoURL := "https://" ++ env.cfg.s3Bucket ++ ".s3." ++
    env.cfg.s3Region ++ ".amazonaws.com/" ++ key
  let video2 := { video with VideoURL := some videoURL }
  let eff2 := { eff with dbWrites := [video2] }
  match env.dbUpdate with
  | .error _ => (.error 500 "Error when updating thumbnail", eff2)
  | .ok _ => (.json 200 video2, eff2)

example : processVideoForFastStart ⟨.ok (), .ok 10⟩ "a.mp4" = .ok "a.mp4.processing" := by decide
example : processVideoForFastStart ⟨.ok (), .ok 0⟩ "a.mp4" = .error () := by decide
example : getVideoAspectRatio ⟨.ok (), .ok ⟨[⟨"audio2", "x"⟩, ⟨"video", "9:16"⟩]⟩⟩ = .ok "9:16" := by decide
example : getVideoAspectRatio ⟨.ok (), .ok ⟨[⟨"video", "1.78"⟩, ⟨"video", "16:9"⟩]⟩⟩ = .ok "16:9" := by decide

/-- A deployment configuration used for concrete evaluations. -/
def cfg0 : Config := ⟨"bkt", "eu-west-1", "cdn.example.com", "secret"⟩

/-- A stored record owned by user 7. -/
def video0 : Video := ⟨1, 7, none, none⟩

/-- Probe output with a single landscape video stream. -/
def meta169 : VideoMeta := ⟨[⟨"video", "16:9"⟩]⟩

/-- An environment in which every external call succeeds. -/
def envOk : Env :=
  { cfg := cfg0
    videoIDParse := .ok 1
    bearerToken := .ok "tok"
    validateJWT := .ok 7
    getVideo := .ok video0
    parseMultipartForm := .ok ()
    formFile := .ok ()
    contentTypeParse := .ok "video/mp4"
    createTemp := .ok "/tmp/tubely-upload.mp4"
    copyBody := .ok ()
    probe := ⟨.ok (), .ok meta169⟩
    remux := ⟨.ok (), .ok 100⟩
    openProcessed := .ok ()
    assetPathResult := "asset1.mp4"
    s3Put := .ok ()
    dbUpdate := .ok ()
    presign := .ok "https://signed.example.com/x"
    randName := List.range 32 }

example : (handlerUploadVideo envOk).1 =
    .json 200 { video0 with
      VideoURL := some "https://cdn.example.com/landscape/asset1.mp4" } := by
  decide

example : (handlerUploadVideoSigned envOk).1 =
    .json 200 { video0 with
      VideoURL := some "https://signed.example.com/x" } := by decide

example : (handlerUploadVideoSigned envOk).2.dbWrites =
    [{ video0 with VideoURL := some "bkt,landscape/asset1.mp4" }] := by decide

example : (handlerUploadVideoStatic envOk).2.s3Puts =
    [⟨"bkt", "landscape/" ++ b64RawUrlEncode (List.range 32) ++ ".mp4",
      "video/mp4"⟩] := by decide

/-- The stream filter the aspect loop actually selects on: a video
stream whose declared ratio is exactly "16:9" or "9:16". -/
def qualifies (s : StreamInfo) : Bool :=
  s.CodecType == "video" &&
    (s.DisplayAspectRatio == "16:9" || s.DisplayAspectRatio == "9:16")

/-- The ratio string a probe outcome yields ("" when the probe failed;
total companion of `getVideoAspectRatio` for stating run results). -/
def aspectOf (p : ProbeEnv) : String :=
  match getVideoAspectRatio p with
  | .ok r => r
  | .error _ => ""

/-- The storage key the static-URL variant derives
(`src/unnamed/part_001` second file, lines 379-390). -/
def staticKey (env : Env) : String :=
  classifyRatio (aspectOf env.probe) ++ "/" ++
    b64RawUrlEncode env.randName ++ ".mp4"

/-- The static URL the static-URL variant persists (line 405). -/
def staticUrl (env : Env) : String :=
  "https://" ++ env.cfg.s3Bucket ++ ".s3." ++ env.cfg.s3Region ++
    ".amazonaws.com/" ++ staticKey env

/-- Environment in which the streaming copy into the temp file fails
(e.g. the client disconnects mid-upload); everything before succeeds. -/
def envCopyFail : Env := { envOk with copyBody := .error () }

/-- Environment in which the aspect-ratio probe fails (ffprobe exits
non-zero); everything before succeeds. -/
def envProbeFail : Env := { envOk with probe := ⟨.error (), .ok meta169⟩ }

/-- Probe output whose first video stream declares the decimal ratio
"1.78" and whose second declares "16:9". -/
def metaTwoVideoStreams : VideoMeta :=
  ⟨[⟨"video", "1.78"⟩, ⟨"video", "16:9"⟩]⟩

/-- Classification as the claim words it (for comparison only, NOT the
source behaviour): select the first stream whose codec type is "video"
and classify by exact string equality on its declared ratio alone. -/
def claimFirstVideoStreamClass (meta : VideoMeta) : String :=
  match meta.Streams.find? (fun s => s.CodecType == "video") with
  | some s =>
    if s.DisplayAspectRatio = "16:9" then "landscape"
    else if s.DisplayAspectRatio = "9:16" then "portrait"
    else "other"
  | none => "other"

/-- A record holding a fully-qualified static URL (no comma). -/
def videoNoComma : Video :=
  ⟨1, 7, some "https://cdn.example.com/landscape/a.mp4", none⟩

/-- Environment whose `FormFile("video")` call fails. -/
def envFormFileFail : Env := { envOk with formFile := .error () }

/-- Environment of an authenticated user (id 8) uploading to a record
owned by user 7. -/
def envWrongOwner : Env := { envOk with validateJWT := .ok 8 }

/-- Environment whose upload declares content type image/png. -/
def envWrongType : Env := { envOk with contentTypeParse := .ok "image/png" }

/-- The all-success environment with the complementary random draw
32..63. -/
def envOkDraw2 : Env :=
  { envOk with randName := (List.range 32).map (fun b => b + 32) }

/-- The metadata write the all-success signed-variant run issues. -/
def vSignedWrite : Video :=
  { video0 with VideoURL := some "bkt,landscape/asset1.mp4" }

/-- The presign call the all-success signed-variant run issues. -/
def pSignedCall : PresignCall :=
  ⟨"bkt", "landscape/asset1.mp4", timeSecond * 5⟩

/-- The aspect loop returns the ratio of the first qualifying stream,
"other" when none qualifies. -/
theorem aspectLoop_eq_find (l : List StreamInfo) :
    aspectLoop l =
      (match l.find? qualifies with
       | some s => s.DisplayAspectRatio
       | none => "other") := by
  induction l with
  | nil => rfl
  | cons s rest ih =>
    simp only [List.find?]
    by_cases hc : s.CodecType = "video"
    · by_cases h16 : s.DisplayAspectRatio = "16:9"
      · simp [aspectLoop, qualifies, hc, h16]
      · by_cases h9 : s.DisplayAspectRatio = "9:16"
        · simp [aspectLoop, qualifies, hc, h16, h9]
        · have hb16 : (s.DisplayAspectRatio == "16:9") = false :=
            beq_eq_false_iff_ne.mpr h16
          have hb9 : (s.DisplayAspectRatio == "9:16") = false :=
            beq_eq_false_iff_ne.mpr h9
          simp [aspectLoop, qualifies, hc, h16, h9, hb16, hb9, ih]
    · have hbc : (s.CodecType == "video") = false := beq_eq_false_iff_ne.mpr hc
      simp [aspectLoop, qualifies, hc, hbc, ih]

/-- The aspect loop only ever produces "16:9", "9:16" or "other". -/
theorem aspectLoop_mem (l : List StreamInfo) :
    aspectLoop l = "16:9" ∨ aspectLoop l = "9:16" ∨ aspectLoop l = "other" := by
  induction l with
  | nil => simp [aspectLoop]
  | cons s rest ih =>
    by_cases hc : s.CodecType = "video"
    · by_cases hd : s.DisplayAspectRatio = "16:9" ∨ s.DisplayAspectRatio = "9:16"
      · rcases hd with hd | hd <;> simp [aspectLoop, hc, hd]
      · simpa [aspectLoop, hc, hd] using ih
    · simpa [aspectLoop, hc] using ih

/-- Splitting on a character that does not occur yields the single whole
group (so Go's `strings.Split` returns a one-element slice). -/
theorem splitOnChar_of_not_mem {c : Char} :
    ∀ {l : List Char}, c ∉ l → splitOnChar c l = [l] := by
  intro l
  induction l with
  | nil => intro h; rfl
  | cons x xs ih =>
    intro h
    have hx : ¬ x = c := fun he => h (he ▸ List.mem_cons_self x xs)
    have hxs : c ∉ xs := fun hm => h (List.mem_cons_of_mem x hm)
    simp [splitOnChar, hx, ih hxs]

/-- Every sextet produced from a byte list is below 64. -/
theorem toSextets_lt : ∀ l : List Nat, (∀ b ∈ l, b < 256) →
    ∀ s ∈ toSextets l, s < 64
  | [], _, s, hs => by simp [toSextets] at hs
  | [b0], h, s, hs => by
    have hb0 : b0 < 256 := h b0 (by simp)
    simp [toSextets] at hs
    rcases hs with hs | hs <;> omega
  | [b0, b1], h, s, hs => by
    have hb0 : b0 < 256 := h b0 (by simp)
    have hb1 : b1 < 256 := h b1 (by simp)
    simp [toSextets] at hs
    rcases hs with hs | hs | hs <;> omega
  | b0 :: b1 :: b2 :: rest, h, s, hs => by
    have hb0 : b0 < 256 := h b0 (by simp)
    have hb1 : b1 < 256 := h b1 (by simp)
    have hb2 : b2 < 256 := h b2 (by simp)
    have hrest : ∀ b ∈ rest, b < 256 := fun b hb => h b (by simp [hb])
    simp only [toSextets, List.mem_cons] at hs
    rcases hs with hs | hs | hs | hs | hs
    · omega
    · omega
    · omega
    · omega
    · exact toSextets_lt rest hrest s hs

/-- `b64Val` inverts `b64Char` below 64. -/
theorem b64Val_b64Char : ∀ n, n < 64 → b64Val (b64Char n) = n := by decide

/-- Un-chopping inverts chopping on byte lists. -/
theorem fromSextets_toSextets : ∀ l : List Nat, (∀ b ∈ l, b < 256) →
    fromSextets (toSextets l) = l
  | [], _ => rfl
  | [b0], h => by
    have hb0 : b0 < 256 := h b0 (by simp)
    simp only [toSextets, fromSextets, List.cons.injEq, and_true]
    omega
  | [b0, b1], h => by
    have hb0 : b0 < 256 := h b0 (by simp)
    have hb1 : b1 < 256 := h b1 (by simp)
    simp only [toSextets, fromSextets, List.cons.injEq, and_true]
    omega
  | b0 :: b1 :: b2 :: rest, h => by
    have hb0 : b0 < 256 := h b0 (by simp)
    have hb1 : b1 < 256 := h b1 (by simp)
    have hb2 : b2 < 256 := h b2 (by simp)
    have hrest : ∀ b ∈ rest, b < 256 := fun b hb => h b (by simp [hb])
    have ih := fromSextets_toSextets rest hrest
    simp only [toSextets, fromSextets, ih, List.cons.injEq, and_true]
    omega

/-- Decoding inverts the URL-safe padding-free encoding on byte lists. -/
theorem b64RawUrlDecode_encode (l : List Nat) (h : ∀ b ∈ l, b < 256) :
    b64RawUrlDecode (b64RawUrlEncode l) = l := by
  unfold b64RawUrlDecode b64RawUrlEncode
  have hmap : ((toSextets l).map b64Char).map b64Val = toSextets l := by
    rw [List.map_map]
    have : ∀ s ∈ toSextets l, (b64Val ∘ b64Char) s = id s := by
      intro s hs
      exact b64Val_b64Char s (toSextets_lt l h s hs)
    rw [List.map_congr_left this, List.map_id]
  simp only [hmap]
  exact fromSextets_toSextets l h

/-- The URL-safe padding-free encoding is injective on byte lists. -/
theorem b64RawUrlEncode_inj {l1 l2 : List Nat} (h1 : ∀ b ∈ l1, b < 256)
    (h2 : ∀ b ∈ l2, b < 256) (he : b64RawUrlEncode l1 = b64RawUrlEncode l2) :
    l1 = l2 := by
  have := congrArg b64RawUrlDecode he
  rwa [b64RawUrlDecode_encode l1 h1, b64RawUrlDecode_encode l2 h2] at this

/-- Number of sextets produced from a byte list. -/
theorem toSextets_length : ∀ l : List Nat,
    (toSextets l).length = (l.length * 4 + 2) / 3
  | [] => rfl
  | [_] => by simp [toSextets]
  | [_, _] => by simp [toSextets]
  | _ :: _ :: _ :: rest => by
    have ih := toSextets_length rest
    simp only [toSextets, List.length_cons, ih]
    omega

/-- A 32-byte draw encodes to 43 characters. -/
theorem b64RawUrlEncode_length (l : List Nat) (h : l.length = 32) :
    (b64RawUrlEncode l).length = 43 := by
  show ((toSextets l).map b64Char).length = 43
  rw [List.length_map, toSextets_length, h]

/-- Every character of an encoding is in the URL-safe alphabet. -/
theorem b64RawUrlEncode_mem_alphabet (l : List Nat) (h : ∀ b ∈ l, b < 256) :
    ∀ c ∈ (b64RawUrlEncode l).data, c ∈ b64UrlAlphabet := by
  intro c hc
  have hmem : c ∈ (toSextets l).map b64Char := hc
  rcases List.mem_map.mp hmem with ⟨s, hs, rfl⟩
  have hlt : s < 64 := toSextets_lt l h s hs
  have : ∀ n, n < 64 → b64Char n ∈ b64UrlAlphabet := by decide
  exact this s hlt

/-- No padding character appears in an encoding: the alphabet does not
contain '='. -/
theorem b64RawUrlEncode_no_pad (l : List Nat) (h : ∀ b ∈ l, b < 256) :
    '=' ∉ (b64RawUrlEncode l).data := by
  intro hc
  have := b64RawUrlEncode_mem_alphabet l h '=' hc
  revert this
  decide

/-- A successful probe classifies into the closed orientation set. -/
theorem classifyRatio_probe_mem (p : ProbeEnv) (r : String)
    (h : getVideoAspectRatio p = .ok r) :
    classifyRatio r = "landscape" ∨ classifyRatio r = "portrait" ∨
      classifyRatio r = "other" := by
  unfold getVideoAspectRatio at h
  rcases hr : p.ffprobeRun with e | u
  · rw [hr] at h; cases h
  · rw [hr] at h
    rcases hm : p.unmarshal with e | meta
    · rw [hm] at h; cases h
    · rw [hm] at h
      have hrr : r = aspectLoop meta.Streams := by
        cases h; rfl
      subst hrr
      rcases aspectLoop_mem meta.Streams with ha | ha | ha <;>
        rw [ha] <;> simp [classifyRatio]

/-- Keys of the form `<orientation>/<encoding>.mp4` built from distinct
byte lists are distinct: for a common orientation this is injectivity of
the encoding, and distinct orientations of the closed set start with
distinct characters. -/
theorem mp4Key_ne (o1 o2 : String)
    (ho1 : o1 = "landscape" ∨ o1 = "portrait" ∨ o1 = "other")
    (ho2 : o2 = "landscape" ∨ o2 = "portrait" ∨ o2 = "other")
    (l1 l2 : List Nat) (hb1 : ∀ b ∈ l1, b < 256) (hb2 : ∀ b ∈ l2, b < 256)
    (hne : l1 ≠ l2) :
    o1 ++ "/" ++ b64RawUrlEncode l1 ++ ".mp4" ≠
      o2 ++ "/" ++ b64RawUrlEncode l2 ++ ".mp4" := by
  intro h
  have hee : (b64RawUrlEncode l1).data = (b64RawUrlEncode l2).data → False :=
    fun he => hne (b64RawUrlEncode_inj hb1 hb2 (congrArg String.mk he))
  have hd := congrArg String.data h
  simp only [String.data_append, List.append_assoc] at hd
  rcases ho1 with rfl | rfl | rfl <;> rcases ho2 with rfl | rfl | rfl
  all_goals
    first
    | exact hee (List.append_cancel_right
        (List.append_cancel_left (List.append_cancel_left hd)))
    | simpa using congrArg List.head? hd

/-- Strings sharing a prefix are equal only if the suffixes are. -/
theorem append_left_cancel_str {p a b : String} (h : p ++ a = p ++ b) :
    a = b := by
  have hd := congrArg String.data h
  simp only [String.data_append] at hd
  exact congrArg String.mk (List.append_cancel_left hd)

/-- C1: the staged temp file is NOT deleted on every exit path of the
authoritative handler.  `defer os.Remove(tmpFile.Name())` is registered
only after the aspect-ratio probe has succeeded
(`src/handler_upload_video.go` line 152, after both fallible steps), so
when the streaming copy from the request body fails, and when the probe
fails, the handler returns with the temp file created but never removed
— contradicting the claim that deletion is scheduled unconditionally at
creation. -/
theorem handlerUploadVideo_temp_leak :
    ((handlerUploadVideo envCopyFail).1 =
        .error 500 "Error when writing temp video file" ∧
      (handlerUploadVideo envCopyFail).2.tempCreated = true ∧
      (handlerUploadVideo envCopyFail).2.tempRemoved = false) ∧
    ((handlerUploadVideo envProbeFail).1 =
        .error 500 "Error when fetching video ratio" ∧
      (handlerUploadVideo envProbeFail).2.tempCreated = true ∧
      (handlerUploadVideo envProbeFail).2.tempRemoved = false) := by
  exact ⟨⟨rfl, rfl, rfl⟩, ⟨rfl, rfl, rfl⟩⟩

/-- C2 counterexample: with a first video stream declaring "1.78" and a
second declaring "16:9", the source classifies landscape (the loop skips
non-matching video streams and keeps scanning), while the claim's
first-video-stream rule classifies other. -/
theorem getVideoAspectRatio_not_first_video_stream :
    getVideoAspectRatio ⟨.ok (), .ok metaTwoVideoStreams⟩ = .ok "16:9" ∧
    classifyRatio "16:9" = "landscape" ∧
    claimFirstVideoStreamClass metaTwoVideoStreams = "other" := by
  exact ⟨rfl, rfl, rfl⟩

/-- C2 amended: classification is determined by the FIRST stream whose
codec type is "video" AND whose declared display-aspect-ratio is exactly
"16:9" or "9:16"; its ratio string is returned (the handler then renames
it landscape/portrait); when no such stream exists — including when video
streams declare only other notations, or no video stream exists — the
probe yields "other". -/
theorem getVideoAspectRatio_first_qualifying (p : ProbeEnv) (meta : VideoMeta)
    (hrun : p.ffprobeRun = .ok ()) (hm : p.unmarshal = .ok meta) :
    getVideoAspectRatio p =
      .ok (match meta.Streams.find? qualifies with
           | some s => s.DisplayAspectRatio
           | none => "other") := by
  unfold getVideoAspectRatio
  rw [hrun, hm]
  exact congrArg Except.ok (aspectLoop_eq_find meta.Streams)

/-- C2 witness: the amended rule evaluated on the two-video-stream
probe output. -/
theorem getVideoAspectRatio_first_qualifying_witness :
    getVideoAspectRatio ⟨.ok (), .ok metaTwoVideoStreams⟩ =
      .ok (match metaTwoVideoStreams.Streams.find? qualifies with
           | some s => s.DisplayAspectRatio
           | none => "other") :=
  getVideoAspectRatio_first_qualifying ⟨.ok (), .ok metaTwoVideoStreams⟩
    metaTwoVideoStreams rfl rfl

/-- C3: the remux step succeeds exactly when the external process
reports success AND the output file stats successfully with non-zero
size; and any successful result is exactly the input path with the
".processing" suffix appended. -/
theorem processVideoForFastStart_spec (env : RemuxEnv) (filepath : String) :
    (processVideoForFastStart env filepath = .ok (filepath ++ ".processing") ↔
      env.ffmpegRun = .ok () ∧ ∃ n, env.statOutput = .ok n ∧ n ≠ 0) ∧
    (∀ out, processVideoForFastStart env filepath = .ok out →
      out = filepath ++ ".processing") := by
  unfold processVideoForFastStart
  rcases env with ⟨run, stat⟩
  simp only
  cases run with
  | error e => cases e; simp
  | ok u =>
    cases u
    cases stat with
    | error e => simp
    | ok n =>
      by_cases hn : n = 0 <;> simp [hn]

/-- C3 witness: a run whose process succeeded and whose output file has
size 100 returns the suffixed path. -/
theorem processVideoForFastStart_spec_witness :
    processVideoForFastStart ⟨.ok (), .ok 100⟩ "f.mp4" = .ok "f.mp4.processing" :=
  (processVideoForFastStart_spec ⟨.ok (), .ok 100⟩ "f.mp4").1.mpr
    ⟨rfl, 100, rfl, by decide⟩

/-- C9: a stored video URL with no comma (the static fully-qualified
variant) passes through `dbVideoToSignedVideo` unchanged, with no error
and no presign call issued. -/
theorem dbVideoToSignedVideo_passthrough (env : Env) (video : Video)
    (s : String) (hu : video.VideoURL = some s) (hc : ',' ∉ s.data) :
    dbVideoToSignedVideo env video = (.ok video, []) := by
  unfold dbVideoToSignedVideo
  rw [hu]
  have hs : stringsSplitComma s = [s] := by
    unfold stringsSplitComma
    rw [splitOnChar_of_not_mem hc]
    rfl
  simp [hs]

/-- C9 witness: the static-URL record is returned untouched. -/
theorem dbVideoToSignedVideo_passthrough_witness :
    dbVideoToSignedVideo envOk videoNoComma = (.ok videoNoComma, []) :=
  dbVideoToSignedVideo_passthrough envOk videoNoComma
    "https://cdn.example.com/landscape/a.mp4" rfl (by decide)

/-- C10: the result of `r.ParseMultipartForm` is discarded — the handler
is entirely independent of it, so a malformed or oversized multipart body
is never rejected at the parse step; when retrieving the "video" form
field then fails, the handler responds 400 "Unable to parse form file". -/
theorem parseMultipartForm_discarded :
    (∀ (env : Env) (r : Except Unit Unit),
      handlerUploadVideo { env with parseMultipartForm := r } =
        handlerUploadVideo env) ∧
    (∀ (env : Env) (vid uid : Nat) (tok : String) (video : Video),
      env.videoIDParse = .ok vid → env.bearerToken = .ok tok →
      env.validateJWT = .ok uid → env.getVideo = .ok video →
      video.UserID = uid → env.formFile = .error () →
      (handlerUploadVideo env).1 = .error 400 "Unable to parse form file") := by
  constructor
  · intro env r
    rfl
  · intro env vid uid tok video h1 h2 h3 h4 h5 h6
    unfold handlerUploadVideo
    rw [h1, h2, h3, h4]
    simp [h5, h6]

/-- C10 witness: flipping the multipart-parse outcome changes nothing,
and a failing form-field retrieval yields the 400. -/
theorem parseMultipartForm_discarded_witness :
    handlerUploadVideo { envFormFileFail with parseMultipartForm := .error () } =
      handlerUploadVideo envFormFileFail ∧
    (handlerUploadVideo envFormFileFail).1 =
      .error 400 "Unable to parse form file" :=
  ⟨parseMultipartForm_discarded.1 envFormFileFail (.error ()),
   parseMultipartForm_discarded.2 envFormFileFail 1 7 "tok" video0
     rfl rfl rfl rfl rfl rfl⟩

/-- C7: when the fetched record's owner differs from the authenticated
user, the handler responds 401 (within the claim's 401/403) and performs
no side effect at all: the effect record is empty — no temp file created,
no S3 put issued, no metadata write issued. -/
theorem ownership_mismatch_no_side_effects (env : Env) (vid uid : Nat)
    (tok : String) (video : Video)
    (h1 : env.videoIDParse = .ok vid) (h2 : env.bearerToken = .ok tok)
    (h3 : env.validateJWT = .ok uid) (h4 : env.getVideo = .ok video)
    (h5 : video.UserID ≠ uid) :
    handlerUploadVideo env =
      (.error 401 "User is not the owner of the video", {}) ∧
    (handlerUploadVideo env).2.tempCreated = false ∧
    (handlerUploadVideo env).2.s3Puts = [] ∧
    (handlerUploadVideo env).2.dbWrites = [] := by
  have hmain : handlerUploadVideo env =
      (.error 401 "User is not the owner of the video", {}) := by
    unfold handlerUploadVideo
    rw [h1, h2, h3, h4]
    simp [h5]
  exact ⟨hmain, by rw [hmain], by rw [hmain], by rw [hmain]⟩

/-- C7 witness: user 8 against the record of user 7. -/
theorem ownership_mismatch_no_side_effects_witness :
    handlerUploadVideo envWrongOwner =
      (.error 401 "User is not the owner of the video", {}) :=
  (ownership_mismatch_no_side_effects envWrongOwner 1 8 "tok" video0
    rfl rfl rfl rfl (by decide)).1

/-- C4: when the declared content type fails to parse (including the
absent-header case, which yields the empty string that the media-type
parser rejects) or parses to anything other than "video/mp4", the
authoritative handler responds 400 and returns before `os.CreateTemp` is
ever called: no temp file is created. -/
theorem content_type_rejected_before_temp (env : Env) (vid uid : Nat)
    (tok : String) (video : Video)
    (h1 : env.videoIDParse = .ok vid) (h2 : env.bearerToken = .ok tok)
    (h3 : env.validateJWT = .ok uid) (h4 : env.getVideo = .ok video)
    (h5 : video.UserID = uid) (h6 : env.formFile = .ok ())
    (h7 : env.contentTypeParse = .error () ∨
      ∃ m, env.contentTypeParse = .ok m ∧ m ≠ "video/mp4") :
    ((handlerUploadVideo env).1 = .error 400 "Invalid Content-Type" ∨
      (handlerUploadVideo env).1 = .error 400 "Invalid file type") ∧
    (handlerUploadVideo env).2.tempCreated = false := by
  unfold handlerUploadVideo
  rw [h1, h2, h3, h4]
  rcases h7 with h7 | ⟨m, h7, hm⟩
  · rw [h7]
    simp [h5, h6]
  · rw [h7]
    simp [h5, h6, hm]

/-- C4 witness: an image/png upload is rejected with 400 and stages
nothing. -/
theorem content_type_rejected_before_temp_witness :
    ((handlerUploadVideo envWrongType).1 = .error 400 "Invalid Content-Type" ∨
      (handlerUploadVideo envWrongType).1 = .error 400 "Invalid file type") ∧
    (handlerUploadVideo envWrongType).2.tempCreated = false :=
  content_type_rejected_before_temp envWrongType 1 7 "tok" video0
    rfl rfl rfl rfl rfl rfl (Or.inr ⟨"image/png", rfl, by decide⟩)

/-- Characterization of a fully successful run of the static-URL
variant: response 200 with the record rewritten to the static URL, one
S3 put under the derived key, one metadata write of that record, and
both temp-file cleanups registered. -/
theorem static_run_spec (env : Env) (vid uid : Nat) (tok tmp : String)
    (video : Video) (r : String)
    (h1 : env.videoIDParse = .ok vid) (h2 : env.bearerToken = .ok tok)
    (h3 : env.validateJWT = .ok uid) (h4 : env.getVideo = .ok video)
    (h5 : video.UserID = uid) (h6 : env.formFile = .ok ())
    (h7 : env.contentTypeParse = .ok "video/mp4")
    (h8 : env.createTemp = .ok tmp) (h9 : env.copyBody = .ok ())
    (h10 : getVideoAspectRatio env.probe = .ok r)
    (h11 : env.s3Put = .ok ()) (h12 : env.dbUpdate = .ok ()) :
    handlerUploadVideoStatic env =
      (.json 200 { video with VideoURL := some (staticUrl env) },
       { tempCreated := true, tempRemoved := true,
         s3Puts := [⟨env.cfg.s3Bucket, staticKey env, "video/mp4"⟩],
         dbWrites := [{ video with VideoURL := some (staticUrl env) }] }) := by
  have ha : aspectOf env.probe = r := by
    unfold aspectOf
    rw [h10]
  unfold handlerUploadVideoStatic
  rw [h1, h2, h3, h4, h6, h7, h8, h9, h10, h11, h12]
  simp [h5, staticUrl, staticKey, ha]

/-- C6: every upload the static-URL variant carries through to storage
puts its object under the key
`<orientation>/<base64url(32 random bytes)>.mp4`: the orientation is one
of landscape/portrait/other, the encoded identifier is the URL-safe
padding-free encoding of the 32-byte random draw (43 characters, all in
the URL-safe alphabet, no padding character), and the ".mp4" extension is
a literal of the key derivation, independent of the upload's declared
content type (which the earlier guard has pinned to "video/mp4"). -/
theorem static_key_composition (env : Env) (vid uid : Nat) (tok tmp : String)
    (video : Video) (r : String)
    (h1 : env.videoIDParse = .ok vid) (h2 : env.bearerToken = .ok tok)
    (h3 : env.validateJWT = .ok uid) (h4 : env.getVideo = .ok video)
    (h5 : video.UserID = uid) (h6 : env.formFile = .ok ())
    (h7 : env.contentTypeParse = .ok "video/mp4")
    (h8 : env.createTemp = .ok tmp) (h9 : env.copyBody = .ok ())
    (h10 : getVideoAspectRatio env.probe = .ok r)
    (h11 : env.s3Put = .ok ()) (h12 : env.dbUpdate = .ok ())
    (hlen : env.randName.length = 32)
    (hbytes : ∀ b ∈ env.randName, b < 256) :
    (handlerUploadVideoStatic env).2.s3Puts =
      [⟨env.cfg.s3Bucket,
        classifyRatio r ++ "/" ++ b64RawUrlEncode env.randName ++ ".mp4",
        "video/mp4"⟩] ∧
    (classifyRatio r = "landscape" ∨ classifyRatio r = "portrait" ∨
      classifyRatio r = "other") ∧
    (b64RawUrlEncode env.randName).length = 43 ∧
    (∀ c ∈ (b64RawUrlEncode env.randName).data, c ∈ b64UrlAlphabet) ∧
    '=' ∉ (b64RawUrlEncode env.randName).data := by
  have ha : aspectOf env.probe = r := by
    unfold aspectOf
    rw [h10]
  have hrun := static_run_spec env vid uid tok tmp video r
    h1 h2 h3 h4 h5 h6 h7 h8 h9 h10 h11 h12
  refine ⟨?_, ?_, ?_, ?_, ?_⟩
  · rw [hrun]
    simp [staticKey, ha]
  · exact classifyRatio_probe_mem env.probe r h10
  · exact b64RawUrlEncode_length env.randName hlen
  · exact b64RawUrlEncode_mem_alphabet env.randName hbytes
  · exact b64RawUrlEncode_no_pad env.randName hbytes

/-- C6 witness: the all-success environment, whose random draw is the
byte list 0..31, stores under `landscape/<43-character encoding>.mp4`. -/
theorem static_key_composition_witness :
    (handlerUploadVideoStatic envOk).2.s3Puts =
      [⟨envOk.cfg.s3Bucket,
        classifyRatio "16:9" ++ "/" ++ b64RawUrlEncode envOk.randName ++ ".mp4",
        "video/mp4"⟩] ∧
    (b64RawUrlEncode envOk.randName).length = 43 :=
  have h := static_key_composition envOk 1 7 "tok" "/tmp/tubely-upload.mp4"
    video0 "16:9" rfl rfl rfl rfl rfl rfl rfl rfl rfl rfl rfl rfl
    (by decide) (by decide)
  ⟨h.1, h.2.2.1⟩

/-- C8: two carried-through uploads of the static-URL variant against
the same deployment whose 32-byte random draws differ derive distinct
storage keys (the URL-safe encoding is injective on byte lists, and the
orientation prefixes of the closed set are mutually distinguishable), and
each run issues exactly one metadata write overwriting the record's video
reference with its own new key's URL — so the persisted references differ
as well and keys are never reused. -/
theorem static_distinct_draws_distinct_keys (env1 env2 : Env)
    (vid1 vid2 uid1 uid2 : Nat) (tok1 tok2 tmp1 tmp2 : String)
    (video1 video2 : Video) (r1 r2 : String)
    (h1a : env1.videoIDParse = .ok vid1) (h2a : env1.bearerToken = .ok tok1)
    (h3a : env1.validateJWT = .ok uid1) (h4a : env1.getVideo = .ok video1)
    (h5a : video1.UserID = uid1) (h6a : env1.formFile = .ok ())
    (h7a : env1.contentTypeParse = .ok "video/mp4")
    (h8a : env1.createTemp = .ok tmp1) (h9a : env1.copyBody = .ok ())
    (h10a : getVideoAspectRatio env1.probe = .ok r1)
    (h11a : env1.s3Put = .ok ()) (h12a : env1.dbUpdate = .ok ())
    (h1b : env2.videoIDParse = .ok vid2) (h2b : env2.bearerToken = .ok tok2)
    (h3b : env2.validateJWT = .ok uid2) (h4b : env2.getVideo = .ok video2)
    (h5b : video2.UserID = uid2) (h6b : env2.formFile = .ok ())
    (h7b : env2.contentTypeParse = .ok "video/mp4")
    (h8b : env2.createTemp = .ok tmp2) (h9b : env2.copyBody = .ok ())
    (h10b : getVideoAspectRatio env2.probe = .ok r2)
    (h11b : env2.s3Put = .ok ()) (h12b : env2.dbUpdate = .ok ())
    (hb1 : ∀ b ∈ env1.randName, b < 256) (hb2 : ∀ b ∈ env2.randName, b < 256)
    (hcfg : env1.cfg = env2.cfg)
    (hne : env1.randName ≠ env2.randName) :
    staticKey env1 ≠ staticKey env2 ∧
    staticUrl env1 ≠ staticUrl env2 ∧
    (handlerUploadVideoStatic env1).2.dbWrites =
      [{ video1 with VideoURL := some (staticUrl env1) }] ∧
    (handlerUploadVideoStatic env2).2.dbWrites =
      [{ video2 with VideoURL := some (staticUrl env2) }] := by
  have ha1 : aspectOf env1.probe = r1 := by
    unfold aspectOf
    rw [h10a]
  have ha2 : aspectOf env2.probe = r2 := by
    unfold aspectOf
    rw [h10b]
  have ho1 := classifyRatio_probe_mem env1.probe r1 h10a
  have ho2 := classifyRatio_probe_mem env2.probe r2 h10b
  rw [← ha1] at ho1
  rw [← ha2] at ho2
  have hkey : staticKey env1 ≠ staticKey env2 := by
    unfold staticKey
    exact mp4Key_ne _ _ ho1 ho2 env1.randName env2.randName hb1 hb2 hne
  have hurl : staticUrl env1 ≠ staticUrl env2 := by
    intro h
    unfold staticUrl at h
    rw [show env1.cfg.s3Bucket = env2.cfg.s3Bucket from by rw [hcfg],
      show env1.cfg.s3Region = env2.cfg.s3Region from by rw [hcfg]] at h
    exact hkey (append_left_cancel_str h)
  have hrun1 := static_run_spec env1 vid1 uid1 tok1 tmp1 video1 r1
    h1a h2a h3a h4a h5a h6a h7a h8a h9a h10a h11a h12a
  have hrun2 := static_run_spec env2 vid2 uid2 tok2 tmp2 video2 r2
    h1b h2b h3b h4b h5b h6b h7b h8b h9b h10b h11b h12b
  exact ⟨hkey, hurl, by rw [hrun1], by rw [hrun2]⟩

/-- C8 witness: the draws 0..31 and 32..63 yield distinct keys and
distinct persisted URLs. -/
theorem static_distinct_draws_distinct_keys_witness :
    staticKey envOk ≠ staticKey envOkDraw2 ∧
    staticUrl envOk ≠ staticUrl envOkDraw2 :=
  have h := static_distinct_draws_distinct_keys envOk envOkDraw2 1 1 7 7
    "tok" "tok" "/tmp/tubely-upload.mp4" "/tmp/tubely-upload.mp4"
    video0 video0 "16:9" "16:9"
    rfl rfl rfl rfl rfl rfl rfl rfl rfl rfl rfl rfl
    rfl rfl rfl rfl rfl rfl rfl rfl rfl rfl rfl rfl
    (by decide) (by decide) rfl (by decide)
  ⟨h.1, h.2.1⟩

/-- Splitting always yields at least one group. -/
theorem splitOnChar_ne_nil (c : Char) : ∀ l : List Char, splitOnChar c l ≠ []
  | [] => by simp [splitOnChar]
  | x :: xs => by
    by_cases hx : x = c
    · simp [splitOnChar, hx]
    · simp only [splitOnChar, hx, if_false]
      rcases hs : splitOnChar c xs with _ | ⟨g, gs⟩
      · simp
      · simp

/-- Splitting on a character that occurs yields at least two groups. -/
theorem splitOnChar_length_ge_two (c : Char) :
    ∀ l : List Char, c ∈ l → 2 ≤ (splitOnChar c l).length
  | [], h => by cases h
  | x :: xs, h => by
    by_cases hx : x = c
    · have h1 : 1 ≤ (splitOnChar c xs).length :=
        List.length_pos.mpr (splitOnChar_ne_nil c xs)
      simp only [splitOnChar, hx, if_true, List.length_cons]
      omega
    · have hmem : c ∈ xs := by
        rcases List.mem_cons.mp h with h | h
        · exact absurd h.symm hx
        · exact h
      have h2 := splitOnChar_length_ge_two c xs hmem
      simp only [splitOnChar, hx, if_false]
      rcases hs : splitOnChar c xs with _ | ⟨g, gs⟩
      · exact absurd hs (splitOnChar_ne_nil c xs)
      · rw [hs] at h2
        simpa using h2

/-- A comma occurs in any `a ++ "," ++ b` string. -/
theorem comma_mem_pair (a b : String) : ',' ∈ (a ++ "," ++ b).data := by
  simp [String.data_append]

/-- Every presign call `dbVideoToSignedVideo` issues carries the expiry
`time.Second * 5`. -/
theorem dbVideoToSignedVideo_expire (env : Env) (video : Video) :
    ∀ c ∈ (dbVideoToSignedVideo env video).2, c.expire = timeSecond * 5 := by
  unfold dbVideoToSignedVideo generatePresignedURL
  rcases video.VideoURL with _ | url
  · simp
  · by_cases hl : (stringsSplitComma url).length < 2
    · simp [hl]
    · rcases hp : env.presign with e | u <;> simp [hl, hp]

/-- When the stored URL contains a comma and `dbVideoToSignedVideo`
returns a record successfully, that record carries exactly the presign
result as its URL (so the presign call succeeded). -/
theorem dbVideoToSignedVideo_ok_url (env : Env) (video v3 : Video)
    (url : String) (hu : video.VideoURL = some url) (hc : ',' ∈ url.data)
    (hok : (dbVideoToSignedVideo env video).1 = .ok v3) :
    ∃ u, env.presign = .ok u ∧ v3.VideoURL = some u := by
  have hl : ¬ (stringsSplitComma url).length < 2 := by
    have h2 : 2 ≤ (splitOnChar ',' url.data).length :=
      splitOnChar_length_ge_two ',' url.data hc
    unfold stringsSplitComma
    simp only [List.length_map]
    omega
  unfold dbVideoToSignedVideo generatePresignedURL at hok
  rw [hu] at hok
  simp only [hl, if_false] at hok
  rcases hp : env.presign with e | u
  · rw [hp] at hok
    cases hok
  · rw [hp] at hok
    refine ⟨u, rfl, ?_⟩
    cases hok
    rfl

/-- Characterization of the signed-URL variant once every step through
the S3 put has succeeded: the record is rewritten to the raw
`bucket,key` pair, written once, and the tail depends only on the update
outcome and `dbVideoToSignedVideo`. -/
theorem signed_run_spec (env : Env) (vid uid : Nat) (tok tmp : String)
    (video : Video) (r : String)
    (h1 : env.videoIDParse = .ok vid) (h2 : env.bearerToken = .ok tok)
    (h3 : env.validateJWT = .ok uid) (h4 : env.getVideo = .ok video)
    (h5 : video.UserID = uid) (h6 : env.formFile = .ok ())
    (h7 : env.contentTypeParse = .ok "video/mp4")
    (h8 : env.createTemp = .ok tmp) (h9 : env.copyBody = .ok ())
    (h10 : getVideoAspectRatio env.probe = .ok r)
    (h11 : processVideoForFastStart env.remux tmp = .ok (tmp ++ ".processing"))
    (h12 : env.openProcessed = .ok ()) (h13 : env.s3Put = .ok ()) :
    handlerUploadVideoSigned env =
      (let video2 : Video := { video with
         VideoURL := some (env.cfg.s3Bucket ++ "," ++
           (classifyRatio r ++ "/" ++ env.assetPathResult)) }
       let eff2 : Effects :=
         { tempCreated := true
           tempRemoved := true
           processedRemoved := true
           s3Puts := [⟨env.cfg.s3Bucket,
             classifyRatio r ++ "/" ++ env.assetPathResult, "video/mp4"⟩]
           dbWrites := [video2] }
       match env.dbUpdate with
       | .error _ => (.error 500 "Error when updating video", eff2)
       | .ok _ =>
         match dbVideoToSignedVideo env video2 with
         | (.error _, calls) =>
           (.error 500 "Error when updating video",
             { eff2 with presignCalls := calls })
         | (.ok video3, calls) =>
           (.json 200 video3, { eff2 with presignCalls := calls })) := by
  unfold handlerUploadVideoSigned
  rw [h1, h2, h3, h4, h6, h7, h8, h9, h10, h12, h13]
  simp [h5, h11]

/-- Pair-destructured form of `dbVideoToSignedVideo_expire`. -/
theorem dbVideoToSignedVideo_pair_expire (env : Env) (video : Video)
    (ex : Except Unit Video) (calls : List PresignCall)
    (heq : dbVideoToSignedVideo env video = (ex, calls)) :
    ∀ c ∈ calls, c.expire = timeSecond * 5 := fun c hc =>
  dbVideoToSignedVideo_expire env video c (by rw [heq]; exact hc)

/-- Pair-destructured form of `dbVideoToSignedVideo_ok_url`. -/
theorem dbVideoToSignedVideo_pair_ok (env : Env) (video v3 : Video)
    (calls : List PresignCall) (url : String)
    (hu : video.VideoURL = some url) (hc : ',' ∈ url.data)
    (heq : dbVideoToSignedVideo env video = (.ok v3, calls)) :
    ∃ u, env.presign = .ok u ∧ v3.VideoURL = some u :=
  dbVideoToSignedVideo_ok_url env video v3 url hu hc (by rw [heq])

/-- C5: in the signed-URL variant, every metadata-store write carries
the raw `<bucket>,<key>` pair (never a presigned URL — at most one write
is ever issued); every presign call carries the expiry
`time.Second * 5`; a presign call is issued only after the persist call
has succeeded; and any 200 response carries the presign result as the
record's URL, while the store kept the raw pair. -/
theorem signed_store_raw_and_presign (env : Env) :
    (∀ v ∈ (handlerUploadVideoSigned env).2.dbWrites,
      v.VideoURL = some (env.cfg.s3Bucket ++ "," ++
        (classifyRatio (aspectOf env.probe) ++ "/" ++ env.assetPathResult))) ∧
    (∀ c ∈ (handlerUploadVideoSigned env).2.presignCalls,
      c.expire = timeSecond * 5) ∧
    ((handlerUploadVideoSigned env).2.presignCalls ≠ [] →
      env.dbUpdate = .ok ()) ∧
    (handlerUploadVideoSigned env).2.dbWrites.length ≤ 1 ∧
    (∀ st v3, (handlerUploadVideoSigned env).1 = .json st v3 →
      ∃ u, env.presign = .ok u ∧ v3.VideoURL = some u) := by
  unfold handlerUploadVideoSigned
  rcases h1 : env.videoIDParse with e1 | vid
  · simp
  simp only []
  rcases h2 : env.bearerToken with e2 | tok
  · simp
  simp only []
  rcases h3 : env.validateJWT with e3 | uid
  · simp
  simp only []
  rcases h4 : env.getVideo with e4 | video
  · simp
  simp only []
  by_cases ho : video.UserID = uid
  case neg => simp [ho]
  rw [if_neg (show ¬ video.UserID ≠ uid from fun hcon => hcon ho)]
  rcases h6 : env.formFile with e6 | u6
  · simp
  simp only []
  rcases h7 : env.contentTypeParse with e7 | mediaType
  · simp
  simp only []
  by_cases hm : mediaType = "video/mp4"
  case neg => simp [hm]
  rw [if_neg (show ¬ mediaType ≠ "video/mp4" from fun hcon => hcon hm)]
  rcases h8 : env.createTemp with e8 | tmp
  · simp
  simp only []
  rcases h9 : env.copyBody with e9 | u9
  · simp
  simp only []
  rcases hp : getVideoAspectRatio env.probe with ep | ratio0
  · simp
  simp only []
  have ha : aspectOf env.probe = ratio0 := by
    unfold aspectOf
    rw [hp]
  rcases hr : processVideoForFastStart env.remux tmp with er | processed
  · simp
  simp only []
  rcases h12 : env.openProcessed with e12 | u12
  · simp
  simp only []
  rcases h13 : env.s3Put with e13 | u13
  · simp
  simp only []
  rcases hd : env.dbUpdate with ed | ud
  · simp [ha]
  simp only []
  refine ⟨?_, ?_, ?_, ?_, ?_⟩
  · split
    next a calls heq => simp [ha]
    next v3 calls heq => simp [ha]
  · split
    next a calls heq =>
      simp only []
      exact dbVideoToSignedVideo_pair_expire env _ _ _ heq
    next v3 calls heq =>
      simp only []
      exact dbVideoToSignedVideo_pair_expire env _ _ _ heq
  · intro _
    trivial
  · split
    next a calls heq => simp
    next v3 calls heq => simp
  · split
    next a calls heq => simp
    next v3 calls heq =>
      intro st v3x hj
      have hv : v3x = v3 := by
        cases hj
        rfl
      subst hv
      exact dbVideoToSignedVideo_pair_ok env _ _ _ _ rfl
        (comma_mem_pair _ _) heq

/-- C5 witness: on the all-success environment, the issued write holds
the raw pair and the issued presign call expires after 5 seconds. -/
theorem signed_store_raw_and_presign_witness :
    vSignedWrite.VideoURL = some (envOk.cfg.s3Bucket ++ "," ++
      (classifyRatio (aspectOf envOk.probe) ++ "/" ++ envOk.assetPathResult)) ∧
    pSignedCall.expire = timeSecond * 5 :=
  ⟨(signed_store_raw_and_presign envOk).1 vSignedWrite (by decide),
   (signed_store_raw_and_presign envOk).2.1 pSignedCall (by decide)⟩
